import Mathlib

/-
Verification of the task-lifecycle and result-retrieval core of the
osintframework server (src/server.py).

The repository ships a single source file, src/server.py, a Tornado-based
HTTP server. Its collaborators (src/db/crud.py, src/cache/redis.py,
src/queue/publisher.py, src/server/structures/*.py,
src/server/handlers/task_spawner.py) are repository code that is not
present under src/; where a property depends on them they are modelled
from the spec, and each such definition carries a doc comment starting
with "Modelled from the spec:".

The embedding below models:
  - the task status values and the task record store as an association
    list keyed by task identifier (ResolverState.store);
  - the Redis result cache as an association list of strings
    (ResolverState.cache), with Python truthiness of a fetched value
    captured by truthyOpt;
  - ResultsHandler.get (src/server.py lines 171-197) as resultsGet,
    which also records the observable effects a test double would see:
    number of store reads, number of cache set attempts, the final cache
    contents, the raised domain error (if any) and the log lines;
  - CreateTaskHandler.post (src/server.py lines 90-114) as
    createTaskPost, recording the ordered list of side effects;
  - ListTaskHandler.get (src/server.py lines 145-163) as listTasksGet,
    together with a model pyIntParse of the Python int() conversion the
    handler applies to the limit argument;
  - the queue-polling PeriodicCallback installed at src/server.py lines
    240-243, whose callback_time argument Tornado interprets in
    milliseconds.

Serialization by json.dumps / tornado.escape.json_encode is modelled by
injective, manifestly non-empty string serializers; the claims under
study depend only on equality, distinctness and non-emptiness of the
serialized values, never on the JSON syntax itself.
-/

namespace OsintServer

/-- Modelled from the spec: the status enumeration of
src/server/structures/task.py (not present under src/). Section 3 of the
spec: status is one of PENDING, SUCCESS, ERROR; PENDING is initial,
SUCCESS and ERROR are terminal. -/
inductive TaskStatus where
  | PENDING
  | SUCCESS
  | ERROR
deriving DecidableEq, Repr

/-- Printable name of a task status, used by the serialization model. -/
def statusName : TaskStatus → String
  | .PENDING => "PENDING"
  | .SUCCESS => "SUCCESS"
  | .ERROR => "ERROR"

/-- A status is terminal when it is SUCCESS or ERROR (spec section 3). -/
def TaskStatus.isTerminal : TaskStatus → Bool
  | .PENDING => false
  | .SUCCESS => true
  | .ERROR => true

/-- An HTTP response as shaped by BaseHandler: plain write leaves the
default 200 status code, BaseHandler.error sets 500
(src/server.py lines 64-82). -/
structure Response where
  statusCode : Nat
  body : String
deriving DecidableEq, Repr

/-- Modelled from the spec: the uniform error envelope produced by
ServerResponse.error (src/server/structures/response.py is not present
under src/); spec section 7: a human-readable message in a uniform
envelope. -/
def errorEnvelope (msg : String) : String :=
  "status: error; message: " ++ msg

/-- BaseHandler.error: set status code 500 and write the error envelope
(src/server.py lines 74-82). -/
def errorResponse (msg : String) : Response :=
  ⟨500, errorEnvelope msg⟩

/-- Python truthiness of an optional string, as tested by
the conditional on redis_cache at src/server.py line 180: None and the
empty string are falsy, every other string is truthy. -/
def truthyOpt : Option String → Bool
  | none => false
  | some s => !(s == "")

/-- Remove every entry with the given key from an association list. -/
def eraseKey (c : List (String × String)) (id : String) : List (String × String) :=
  c.filter (fun p => p.1 ≠ id)

/-- Redis SET on the modelled cache: the new value replaces any previous
value under the same key; other keys are untouched. -/
def setCache (c : List (String × String)) (id v : String) : List (String × String) :=
  (id, v) :: eraseKey c id

/-- Domain errors of the result-read path (spec section 7). taskNotFound
models TaskNotFoundError; other models any unexpected failure. -/
inductive ResolverError where
  | taskNotFound (id : String)
  | other (msg : String)
deriving DecidableEq, Repr

/-- The human-readable message of a resolver error, as interpolated into
the error envelope by the except branch at src/server.py lines 194-197. -/
def ResolverError.message : ResolverError → String
  | .taskNotFound id => "Task " ++ id ++ " was not found"
  | .other msg => msg

/-- The state seen by the result-read path: the Redis result cache and
the task record store, both keyed by task identifier. -/
structure ResolverState where
  cache : List (String × String)
  store : List (String × TaskStatus)
deriving DecidableEq, Repr

/-- Modelled from the spec: TaskCrud.get_results (src/db/crud.py is not
present under src/). Spec section 4.2: on a read, the authoritative
record is fetched from the Task Record Store by identifier; if no record
exists this signals TaskNotFoundError; otherwise the record carries a
status that is one of PENDING, SUCCESS, ERROR. -/
def get_results (store : List (String × TaskStatus)) (id : String) :
    Except ResolverError TaskStatus :=
  match store.lookup id with
  | none => .error (.taskNotFound id)
  | some s => .ok s

/-- Model of json.dumps applied to the results record returned by
TaskCrud.get_results: injective in the identifier and status, and never
the empty string. -/
def serializeResults (id : String) (s : TaskStatus) : String :=
  "task: " ++ id ++ "; status: " ++ statusName s

/-- Log line written on a cache hit (src/server.py line 181). -/
def cacheHitLog (id : String) : String :=
  "Redis cache is available, task " ++ id

/-- Log line written when caching is skipped for a pending task
(src/server.py line 188). -/
def skipCacheLog (id : String) : String :=
  "Status of the task " ++ id ++ " is PENDING, skip Redis cache saving"

/-- Log line written after populating the cache (src/server.py line 192). -/
def saveCacheLog (id : String) : String :=
  "Save results to Redis cache, task " ++ id

/-- Modelled from the spec: the log line RedisCache.set emits when the
underlying cache write fails (src/cache/redis.py is not present under
src/); spec section 7: CacheWriteFailure is logged only, never
propagated. -/
def cacheWriteFailureLog (id : String) : String :=
  "Failed to save results to Redis cache, task " ++ id

/-- The observable outcome of one ResultsHandler.get request: the HTTP
response, the final cache contents, how many times the task record store
was read, how many cache writes were attempted, the domain error raised
inside the handler (if any), and the log lines. -/
structure ResultsOutcome where
  response : Response
  cache : List (String × String)
  storeReads : Nat
  cacheSetAttempts : Nat
  raised : Option ResolverError
  logs : List String
deriving DecidableEq, Repr

/-- The cache-miss continuation of ResultsHandler.get
(src/server.py lines 183-197): read the store, serialize, skip caching
when the status is PENDING, otherwise attempt a best-effort cache write
and return the serialized results; any raised domain error is caught by
the except branch and converted to the 500 error envelope. The
cacheSetFails flag models the environment in which the Redis write
fails; per the spec (section 6, Result Cache contract) RedisCache.set
absorbs the failure and only logs it. -/
def resultsMiss (cacheSetFails : Bool) (st : ResolverState) (task_id : String) :
    ResultsOutcome :=
  match get_results st.store task_id with
  | .error e =>
      ⟨errorResponse ("Unexpected error at getting results: " ++ e.message),
        st.cache, 1, 0, some e, []⟩
  | .ok s =>
      let json_results := serializeResults task_id s
      if s = TaskStatus.PENDING then
        ⟨⟨200, json_results⟩, st.cache, 1, 0, none, [skipCacheLog task_id]⟩
      else if cacheSetFails then
        ⟨⟨200, json_results⟩, st.cache, 1, 1, none, [cacheWriteFailureLog task_id]⟩
      else
        ⟨⟨200, json_results⟩, setCache st.cache task_id json_results, 1, 1, none,
          [saveCacheLog task_id]⟩

/-- ResultsHandler.get (src/server.py lines 171-197): fetch the cached
value for the identifier; if it is truthy, write it back immediately
without touching the task record store; otherwise fall through to the
store-backed path. -/
def resultsGet (cacheSetFails : Bool) (st : ResolverState) (task_id : String) :
    ResultsOutcome :=
  match st.cache.lookup task_id with
  | some v =>
      if v = "" then resultsMiss cacheSetFails st task_id
      else ⟨⟨200, v⟩, st.cache, 0, 0, none, [cacheHitLog task_id]⟩
  | none => resultsMiss cacheSetFails st task_id

/-- The side effects of CreateTaskHandler.post, in the order the handler
performs them (src/server.py lines 96-103): persisting the new PENDING
record, running the task synchronously in-process, or publishing it to
the work queue. -/
inductive CreateEvent where
  | createRecord (id : String)
  | syncRun (id : String)
  | publish (id : String)
deriving DecidableEq, Repr

/-- Model of json_encode applied to task.as_json(): the serialized task
record returned to the creator (identity plus current status). -/
def serializeTask (id : String) (s : TaskStatus) : String :=
  "task_id: " ++ id ++ "; status: " ++ statusName s

/-- The observable outcome of one CreateTaskHandler.post request: the
HTTP response, the ordered side effects, and the final task record
store. -/
structure CreateOutcome where
  response : Response
  events : List CreateEvent
  store : List (String × TaskStatus)
deriving DecidableEq, Repr

/-- CreateTaskHandler.post (src/server.py lines 90-114). The body is
decoded first (line 97); a None body models a json_decode failure, whose
exception text is decodeErr and which the except branch turns into the
500 error envelope before any record is created. Otherwise a fresh task
(identity newId, initial status PENDING — modelled from the spec: the
TaskItem structure of src/server/structures/task.py is not present under
src/) is persisted by TaskCrud.create_task, and then exactly one of the
three type-selector branches runs: a synchronous run, a queue publish,
or the unsupported-value error. The status transition later performed by
the executor itself (TaskSpawner / the queue consumer, both absent from
src/) is outside this handler and is not modelled. -/
def createTaskPost (execution_type : String) (body : Option String)
    (decodeErr : String) (newId : String)
    (store0 : List (String × TaskStatus)) : CreateOutcome :=
  match body with
  | none =>
      ⟨errorResponse ("Unexpected error at task creating: " ++ decodeErr),
        [], store0⟩
  | some _ =>
      let store1 := (newId, TaskStatus.PENDING) :: store0
      if execution_type = "process" then
        ⟨⟨200, serializeTask newId TaskStatus.PENDING⟩,
          [CreateEvent.createRecord newId, CreateEvent.syncRun newId], store1⟩
      else if execution_type = "queue" then
        ⟨⟨200, serializeTask newId TaskStatus.PENDING⟩,
          [CreateEvent.createRecord newId, CreateEvent.publish newId], store1⟩
      else
        ⟨errorResponse ("Unsupported value for parameter type: " ++
            execution_type ++ ". Supported values: queue, process"),
          [CreateEvent.createRecord newId], store1⟩

/-- The call ListTaskHandler.get issues into TaskCrud
(src/server.py lines 153-156): get_task with the identifier, or
get_tasks with the parsed optional limit. -/
inductive CrudCall where
  | getTask (id : String)
  | getTasks (limit : Option Int)
deriving DecidableEq, Repr

/-- Model of json.dumps applied to the listing TaskCrud returns for the
issued call. -/
def serializeCrud : CrudCall → String
  | .getTask id => "tasks for id: " ++ id
  | .getTasks none => "all tasks"
  | .getTasks (some n) => "tasks limited to " ++ toString n

/-- Strip leading and trailing whitespace, as Python int() does to its
string argument. -/
def pyStrip (s : String) : List Char :=
  ((s.data.dropWhile Char.isWhitespace).reverse.dropWhile Char.isWhitespace).reverse

/-- Digit tail of a Python integer literal: decimal digits with single
underscores allowed between digits, never trailing or doubled. -/
def pyIntDigits : List Char → Nat → Option Nat
  | [], acc => some acc
  | ['_'], _ => none
  | '_' :: c :: rest, acc =>
      if c.isDigit then pyIntDigits rest (10 * acc + (c.toNat - 48)) else none
  | c :: rest, acc =>
      if c.isDigit then pyIntDigits rest (10 * acc + (c.toNat - 48)) else none

/-- Magnitude of a Python integer literal: at least one digit, starting
with a digit (no leading underscore). -/
def pyIntMag : List Char → Option Nat
  | [] => none
  | c :: rest => if c.isDigit then pyIntDigits rest (c.toNat - 48) else none

/-- Model of the Python built-in int() on a string (base 10): strip
whitespace, an optional sign, then a non-empty digit sequence with
single internal underscores; anything else raises ValueError, modelled
as none. -/
def pyIntParse (s : String) : Option Int :=
  match pyStrip s with
  | '+' :: rest => (pyIntMag rest).map (fun n => (n : Int))
  | '-' :: rest => (pyIntMag rest).map (fun n => -(n : Int))
  | rest => (pyIntMag rest).map (fun n => (n : Int))

/-- Exception text of the ValueError raised by int() on an unparseable
literal, as interpolated into the error envelope. -/
def intParseErrorMsg (s : String) : String :=
  "invalid literal for int() with base 10: " ++ s

/-- The observable outcome of one ListTaskHandler.get request: the HTTP
response and the TaskCrud call the handler issued, if any. -/
structure ListOutcome where
  response : Response
  crudCall : Option CrudCall
deriving DecidableEq, Repr

/-- ListTaskHandler.get (src/server.py lines 145-163): when the task_id
argument is truthy, call TaskCrud.get_task with it — the limit argument
is never touched; otherwise call TaskCrud.get_tasks with int(limit) when
limit is truthy and with None when limit is absent or empty. A ValueError
from int() is caught by the except branch and becomes the 500 error
envelope, with no TaskCrud call issued. -/
def listTasksGet (task_id : Option String) (limit : Option String) : ListOutcome :=
  if truthyOpt task_id then
    ⟨⟨200, serializeCrud (CrudCall.getTask (task_id.getD ""))⟩,
      some (CrudCall.getTask (task_id.getD ""))⟩
  else if truthyOpt limit then
    match pyIntParse (limit.getD "") with
    | none =>
        ⟨errorResponse ("Unexpected error at tasks listing: " ++
            intParseErrorMsg (limit.getD "")), none⟩
    | some n =>
        ⟨⟨200, serializeCrud (CrudCall.getTasks (some n))⟩,
          some (CrudCall.getTasks (some n))⟩
  else
    ⟨⟨200, serializeCrud (CrudCall.getTasks none)⟩,
      some (CrudCall.getTasks none)⟩

/-- The callback_time argument passed to tornado.ioloop.PeriodicCallback
for the queue-draining activity (src/server.py lines 240-243): the
literal 1.000. -/
def pollingCallbackTime : Rat := 1

/-- The resulting polling interval in seconds. Tornado documents
PeriodicCallback callback_time as the time between calls in
milliseconds, so the drain fires every callback_time / 1000 seconds. -/
def pollingIntervalSeconds : Rat := pollingCallbackTime / 1000

/-- A duration in seconds is on the order of one second when it lies
within one decimal order of magnitude of a second. -/
def onTheOrderOfOneSecond (s : Rat) : Prop := 1 / 10 ≤ s ∧ s ≤ 10

/-- The serialized results record is never the empty string, hence it is
truthy when read back from the cache. -/
theorem serializeResults_ne_empty (id : String) (s : TaskStatus) :
    serializeResults id s ≠ "" := by
  intro h
  have hlen := congrArg String.length h
  simp [serializeResults, String.length_append] at hlen
  exact absurd hlen.1.1.1 (by decide)

/-- When the cached value is absent or empty (falsy), ResultsHandler.get
runs the store-backed path. -/
theorem resultsGet_eq_miss (f : Bool) (st : ResolverState) (id : String)
    (h : truthyOpt (st.cache.lookup id) = false) :
    resultsGet f st id = resultsMiss f st id := by
  unfold resultsGet
  cases hc : st.cache.lookup id with
  | none => rfl
  | some v =>
      rw [hc] at h
      simp only [truthyOpt, Bool.not_eq_false'] at h
      have hv : v = "" := by simpa using h
      simp [hv]

/-- When the cached value is present and non-empty (truthy),
ResultsHandler.get returns it without reading the store. -/
theorem resultsGet_hit (f : Bool) (st : ResolverState) (id v : String)
    (hc : st.cache.lookup id = some v) (hv : v ≠ "") :
    resultsGet f st id = ⟨⟨200, v⟩, st.cache, 0, 0, none, [cacheHitLog id]⟩ := by
  unfold resultsGet
  rw [hc]
  simp [hv]

/-- Store-backed path on an identifier with no record: the
TaskNotFoundError is raised and converted to the error envelope. -/
theorem resultsMiss_notFound (f : Bool) (st : ResolverState) (id : String)
    (h : st.store.lookup id = none) :
    resultsMiss f st id =
      ⟨errorResponse ("Unexpected error at getting results: " ++
          ResolverError.message (ResolverError.taskNotFound id)),
        st.cache, 1, 0, some (ResolverError.taskNotFound id), []⟩ := by
  unfold resultsMiss get_results
  rw [h]

/-- Store-backed path on a PENDING record: the pending view is returned
and the cache is left untouched. -/
theorem resultsMiss_pending (f : Bool) (st : ResolverState) (id : String)
    (h : st.store.lookup id = some TaskStatus.PENDING) :
    resultsMiss f st id =
      ⟨⟨200, serializeResults id TaskStatus.PENDING⟩, st.cache, 1, 0, none,
        [skipCacheLog id]⟩ := by
  unfold resultsMiss get_results
  rw [h]
  simp

/-- Store-backed path on a terminal record with a succeeding cache
write: the cache is populated and the serialized results are returned. -/
theorem resultsMiss_terminal_ok (st : ResolverState) (id : String) (s : TaskStatus)
    (h : st.store.lookup id = some s) (hs : s ≠ TaskStatus.PENDING) :
    resultsMiss false st id =
      ⟨⟨200, serializeResults id s⟩,
        setCache st.cache id (serializeResults id s), 1, 1, none,
        [saveCacheLog id]⟩ := by
  unfold resultsMiss get_results
  rw [h]
  simp [hs]

/-- Store-backed path on a terminal record with a failing cache write:
the serialized results are still returned and only a log line records
the failure. -/
theorem resultsMiss_terminal_fail (st : ResolverState) (id : String) (s : TaskStatus)
    (h : st.store.lookup id = some s) (hs : s ≠ TaskStatus.PENDING) :
    resultsMiss true st id =
      ⟨⟨200, serializeResults id s⟩, st.cache, 1, 1, none,
        [cacheWriteFailureLog id]⟩ := by
  unfold resultsMiss get_results
  rw [h]
  simp [hs]

/-- The store-backed path always performs exactly one store read. -/
theorem resultsMiss_storeReads (f : Bool) (st : ResolverState) (id : String) :
    (resultsMiss f st id).storeReads = 1 := by
  unfold resultsMiss get_results
  cases st.store.lookup id with
  | none => rfl
  | some s => by_cases hs : s = TaskStatus.PENDING <;> cases f <;> simp [hs]

/-- Every observable of the store-backed path except the final cache
contents is independent of the initial cache contents. -/
theorem resultsMiss_cache_independent (f : Bool) (c1 c2 : List (String × String))
    (store : List (String × TaskStatus)) (id : String) :
    (resultsMiss f ⟨c1, store⟩ id).response = (resultsMiss f ⟨c2, store⟩ id).response ∧
    (resultsMiss f ⟨c1, store⟩ id).storeReads = (resultsMiss f ⟨c2, store⟩ id).storeReads ∧
    (resultsMiss f ⟨c1, store⟩ id).cacheSetAttempts =
      (resultsMiss f ⟨c2, store⟩ id).cacheSetAttempts ∧
    (resultsMiss f ⟨c1, store⟩ id).raised = (resultsMiss f ⟨c2, store⟩ id).raised ∧
    (resultsMiss f ⟨c1, store⟩ id).logs = (resultsMiss f ⟨c2, store⟩ id).logs := by
  unfold resultsMiss get_results
  cases store.lookup id with
  | none => exact ⟨rfl, rfl, rfl, rfl, rfl⟩
  | some s => by_cases hs : s = TaskStatus.PENDING <;> cases f <;> simp [hs]

/-- Erasing a key removes it from the association list. -/
theorem eraseKey_lookup_self (c : List (String × String)) (id : String) :
    (eraseKey c id).lookup id = none := by
  induction c with
  | nil => rfl
  | cons p rest ih =>
      by_cases hp : p.1 = id
      · simpa [eraseKey, List.filter_cons, hp] using ih
      · have hb : (id == p.1) = false := beq_eq_false_iff_ne.mpr (Ne.symm hp)
        simpa [eraseKey, List.filter_cons, hp, List.lookup, hb] using ih

/-- A cache write makes the written value the one subsequently fetched
for that key. -/
theorem setCache_lookup_self (c : List (String × String)) (id v : String) :
    (setCache c id v).lookup id = some v := by
  simp [setCache, List.lookup]

/-- Claim C1: on the terminal-status branch of a result query (cache
miss, record found, status SUCCESS or ERROR), a failure of the cache
write does not change the response: the caller still receives the
successful serialized result with a 200 status, no error is raised, and
the failure is only logged. -/
theorem results_cache_write_failure_only_logged (st : ResolverState)
    (id : String) (s : TaskStatus)
    (hmiss : truthyOpt (st.cache.lookup id) = false)
    (hrec : st.store.lookup id = some s)
    (hterm : s = TaskStatus.SUCCESS ∨ s = TaskStatus.ERROR) :
    (resultsGet true st id).response = (resultsGet false st id).response ∧
    (resultsGet true st id).response = ⟨200, serializeResults id s⟩ ∧
    (resultsGet true st id).raised = none ∧
    (resultsGet true st id).logs = [cacheWriteFailureLog id] := by
  have hp : s ≠ TaskStatus.PENDING := by
    rcases hterm with rfl | rfl <;> decide
  rw [resultsGet_eq_miss true st id hmiss, resultsGet_eq_miss false st id hmiss,
    resultsMiss_terminal_fail st id s hrec hp, resultsMiss_terminal_ok st id s hrec hp]
  exact ⟨rfl, rfl, rfl, rfl⟩

/-- Witness for claim C1 at a concrete terminal-status state. -/
theorem results_cache_write_failure_only_logged_witness :
    (resultsGet true ⟨[], [("t", TaskStatus.SUCCESS)]⟩ "t").response =
      (resultsGet false ⟨[], [("t", TaskStatus.SUCCESS)]⟩ "t").response ∧
    (resultsGet true ⟨[], [("t", TaskStatus.SUCCESS)]⟩ "t").response =
      ⟨200, serializeResults "t" TaskStatus.SUCCESS⟩ ∧
    (resultsGet true ⟨[], [("t", TaskStatus.SUCCESS)]⟩ "t").raised = none ∧
    (resultsGet true ⟨[], [("t", TaskStatus.SUCCESS)]⟩ "t").logs =
      [cacheWriteFailureLog "t"] :=
  results_cache_write_failure_only_logged ⟨[], [("t", TaskStatus.SUCCESS)]⟩ "t"
    TaskStatus.SUCCESS (by decide) (by decide) (Or.inl rfl)

/-- Claim C2: a value is written into the result cache for an identifier
only if the status read from the store at that moment is terminal
(SUCCESS or ERROR); when the status is PENDING the query returns the
pending view and the cache is left exactly as it was. -/
theorem results_cache_populated_only_terminal (f : Bool) (st : ResolverState)
    (id : String) :
    ((resultsGet f st id).cache ≠ st.cache →
      st.store.lookup id = some TaskStatus.SUCCESS ∨
      st.store.lookup id = some TaskStatus.ERROR) ∧
    (st.store.lookup id = some TaskStatus.PENDING →
      truthyOpt (st.cache.lookup id) = false →
      (resultsGet f st id).response = ⟨200, serializeResults id TaskStatus.PENDING⟩ ∧
      (resultsGet f st id).cache = st.cache) := by
  constructor
  · intro hchange
    by_cases ht : truthyOpt (st.cache.lookup id) = true
    · exfalso
      cases hc : st.cache.lookup id with
      | none => rw [hc] at ht; exact absurd ht (by decide)
      | some v =>
          have hv : v ≠ "" := by
            rw [hc] at ht
            simpa [truthyOpt] using ht
          rw [resultsGet_hit f st id v hc hv] at hchange
          exact hchange rfl
    · rw [Bool.not_eq_true] at ht
      rw [resultsGet_eq_miss f st id ht] at hchange
      cases hs : st.store.lookup id with
      | none =>
          rw [resultsMiss_notFound f st id hs] at hchange
          exact absurd rfl hchange
      | some s =>
          cases s with
          | PENDING =>
              rw [resultsMiss_pending f st id hs] at hchange
              exact absurd rfl hchange
          | SUCCESS => exact Or.inl rfl
          | ERROR => exact Or.inr rfl
  · intro hpend hf
    rw [resultsGet_eq_miss f st id hf, resultsMiss_pending f st id hpend]
    exact ⟨rfl, rfl⟩

/-- Witness for claim C2 at a concrete pending-status state. -/
theorem results_cache_populated_only_terminal_witness :
    (resultsGet false ⟨[], [("t", TaskStatus.PENDING)]⟩ "t").response =
      ⟨200, serializeResults "t" TaskStatus.PENDING⟩ ∧
    (resultsGet false ⟨[], [("t", TaskStatus.PENDING)]⟩ "t").cache =
      (⟨[], [("t", TaskStatus.PENDING)]⟩ : ResolverState).cache :=
  (results_cache_populated_only_terminal false ⟨[], [("t", TaskStatus.PENDING)]⟩
    "t").2 (by decide) (by decide)

/-- Claim C3: a result query for an identifier with no record (and no
cached value) raises the distinct TaskNotFoundError — never the generic
error constructor — and is surfaced through the 500 error envelope
carrying the not-found message. -/
theorem results_not_found_distinct (f : Bool) (st : ResolverState) (id : String)
    (hc : st.cache.lookup id = none) (hs : st.store.lookup id = none) :
    (resultsGet f st id).raised = some (ResolverError.taskNotFound id) ∧
    (resultsGet f st id).response =
      errorResponse ("Unexpected error at getting results: " ++
        ResolverError.message (ResolverError.taskNotFound id)) ∧
    (resultsGet f st id).response.statusCode = 500 ∧
    ∀ m, (resultsGet f st id).raised ≠ some (ResolverError.other m) := by
  have hf : truthyOpt (st.cache.lookup id) = false := by rw [hc]; rfl
  rw [resultsGet_eq_miss f st id hf, resultsMiss_notFound f st id hs]
  refine ⟨rfl, rfl, rfl, ?_⟩
  intro m hcontra
  simp at hcontra

/-- Witness for claim C3 at a concrete never-created identifier. -/
theorem results_not_found_distinct_witness :
    (resultsGet false ⟨[], []⟩ "t").raised =
      some (ResolverError.taskNotFound "t") ∧
    (resultsGet false ⟨[], []⟩ "t").response =
      errorResponse ("Unexpected error at getting results: " ++
        ResolverError.message (ResolverError.taskNotFound "t")) ∧
    (resultsGet false ⟨[], []⟩ "t").response.statusCode = 500 ∧
    ∀ m, (resultsGet false ⟨[], []⟩ "t").raised ≠
      some (ResolverError.other m) :=
  results_not_found_distinct false ⟨[], []⟩ "t" (by decide) (by decide)

/-- Claim C4 counterexample: the cache holds a value (the empty string)
for identifier t1, yet the query reads the task record store once and
attempts a cache write, contradicting the claim that any held value is
returned immediately with no store read and no cache rewrite. -/
theorem results_cached_value_counterexample :
    (([("t1", "")] : List (String × String)).lookup "t1").isSome = true ∧
    (resultsGet false ⟨[("t1", "")], [("t1", TaskStatus.SUCCESS)]⟩
      "t1").storeReads = 1 ∧
    (resultsGet false ⟨[("t1", "")], [("t1", TaskStatus.SUCCESS)]⟩
      "t1").cacheSetAttempts = 1 := by
  decide

/-- Claim C4 (amended): when the cache holds a non-empty (truthy) value
for the identifier, it is returned immediately with a 200 status, no
store read and no cache write; and for a terminal-status identifier with
no truthy cached value, the first query populates the cache with the
serialized results and the next query is served from cache without
re-reading the store. -/
theorem results_cache_hit_and_population (f : Bool) (st : ResolverState)
    (id v : String) (s : TaskStatus) :
    (st.cache.lookup id = some v → v ≠ "" →
      resultsGet f st id = ⟨⟨200, v⟩, st.cache, 0, 0, none, [cacheHitLog id]⟩) ∧
    (truthyOpt (st.cache.lookup id) = false → st.store.lookup id = some s →
      s ≠ TaskStatus.PENDING →
      (resultsGet false st id).cache.lookup id = some (serializeResults id s) ∧
      (resultsGet false st id).response = ⟨200, serializeResults id s⟩ ∧
      resultsGet false ⟨(resultsGet false st id).cache, st.store⟩ id =
        ⟨⟨200, serializeResults id s⟩, (resultsGet false st id).cache, 0, 0, none,
          [cacheHitLog id]⟩) := by
  constructor
  · intro hc hv
    exact resultsGet_hit f st id v hc hv
  · intro hf hrec hp
    rw [resultsGet_eq_miss false st id hf, resultsMiss_terminal_ok st id s hrec hp]
    refine ⟨setCache_lookup_self st.cache id (serializeResults id s), rfl, ?_⟩
    exact resultsGet_hit false ⟨setCache st.cache id (serializeResults id s), st.store⟩
      id (serializeResults id s)
      (setCache_lookup_self st.cache id (serializeResults id s))
      (serializeResults_ne_empty id s)

/-- Witness for amended claim C4: a concrete terminal identifier whose
first query populates the cache and whose second query is a pure cache
hit. -/
theorem results_cache_hit_and_population_witness :
    (resultsGet false ⟨[], [("t", TaskStatus.ERROR)]⟩ "t").cache.lookup "t" =
      some (serializeResults "t" TaskStatus.ERROR) ∧
    (resultsGet false ⟨[], [("t", TaskStatus.ERROR)]⟩ "t").response =
      ⟨200, serializeResults "t" TaskStatus.ERROR⟩ ∧
    resultsGet false
        ⟨(resultsGet false ⟨[], [("t", TaskStatus.ERROR)]⟩ "t").cache,
          [("t", TaskStatus.ERROR)]⟩ "t" =
      ⟨⟨200, serializeResults "t" TaskStatus.ERROR⟩,
        (resultsGet false ⟨[], [("t", TaskStatus.ERROR)]⟩ "t").cache, 0, 0, none,
        [cacheHitLog "t"]⟩ :=
  (results_cache_hit_and_population false ⟨[], [("t", TaskStatus.ERROR)]⟩ "t" ""
    TaskStatus.ERROR).2 (by decide) (by decide) (by decide)

/-- Claim C5: a creation request whose execution-mode value is neither
queue nor process fails with an error message naming the received value
and the two accepted values; no queue publish and no synchronous run
occurs, while the task record has already been created and is left
PENDING. -/
theorem create_unsupported_mode (t b decodeErr newId : String)
    (store0 : List (String × TaskStatus))
    (h1 : t ≠ "queue") (h2 : t ≠ "process") :
    (createTaskPost t (some b) decodeErr newId store0).response =
      errorResponse ("Unsupported value for parameter type: " ++ t ++
        ". Supported values: queue, process") ∧
    (createTaskPost t (some b) decodeErr newId store0).response.statusCode = 500 ∧
    (∀ i, CreateEvent.publish i ∉ (createTaskPost t (some b) decodeErr newId store0).events) ∧
    (∀ i, CreateEvent.syncRun i ∉ (createTaskPost t (some b) decodeErr newId store0).events) ∧
    (createTaskPost t (some b) decodeErr newId store0).events =
      [CreateEvent.createRecord newId] ∧
    (createTaskPost t (some b) decodeErr newId store0).store.lookup newId =
      some TaskStatus.PENDING := by
  have hout : createTaskPost t (some b) decodeErr newId store0 =
      ⟨errorResponse ("Unsupported value for parameter type: " ++ t ++
          ". Supported values: queue, process"),
        [CreateEvent.createRecord newId],
        (newId, TaskStatus.PENDING) :: store0⟩ := by
    unfold createTaskPost
    simp [h1, h2]
  rw [hout]
  refine ⟨rfl, rfl, ?_, ?_, rfl, ?_⟩
  · intro i hi
    simp at hi
  · intro i hi
    simp at hi
  · simp [List.lookup]

/-- Witness for claim C5 at the concrete unsupported mode value foo. -/
theorem create_unsupported_mode_witness :
    (createTaskPost "foo" (some "body") "e" "T1" []).response =
      errorResponse ("Unsupported value for parameter type: " ++ "foo" ++
        ". Supported values: queue, process") ∧
    (createTaskPost "foo" (some "body") "e" "T1" []).response.statusCode = 500 ∧
    (∀ i, CreateEvent.publish i ∉ (createTaskPost "foo" (some "body") "e" "T1" []).events) ∧
    (∀ i, CreateEvent.syncRun i ∉ (createTaskPost "foo" (some "body") "e" "T1" []).events) ∧
    (createTaskPost "foo" (some "body") "e" "T1" []).events =
      [CreateEvent.createRecord "T1"] ∧
    (createTaskPost "foo" (some "body") "e" "T1" []).store.lookup "T1" =
      some TaskStatus.PENDING :=
  create_unsupported_mode "foo" "body" "e" "T1" [] (by decide) (by decide)

/-- Claim C6: for a valid creation request in either recognized mode,
the PENDING record is persisted strictly before the dispatch event, and
a result-store read issued immediately after the call finds the new
record. -/
theorem create_record_before_dispatch (t b decodeErr newId : String)
    (store0 : List (String × TaskStatus))
    (h : t = "queue" ∨ t = "process") :
    (createTaskPost t (some b) decodeErr newId store0).events.head? =
      some (CreateEvent.createRecord newId) ∧
    (createTaskPost t (some b) decodeErr newId store0).store.lookup newId =
      some TaskStatus.PENDING ∧
    (t = "queue" →
      (createTaskPost t (some b) decodeErr newId store0).events =
        [CreateEvent.createRecord newId, CreateEvent.publish newId]) ∧
    (t = "process" →
      (createTaskPost t (some b) decodeErr newId store0).events =
        [CreateEvent.createRecord newId, CreateEvent.syncRun newId]) ∧
    get_results (createTaskPost t (some b) decodeErr newId store0).store newId =
      Except.ok TaskStatus.PENDING := by
  rcases h with rfl | rfl <;>
    refine ⟨?_, ?_, ?_, ?_, ?_⟩ <;>
      simp [createTaskPost, get_results, List.lookup]

/-- Witness for claim C6 at a concrete queue-mode creation. -/
theorem create_record_before_dispatch_witness :
    (createTaskPost "queue" (some "body") "e" "T1" []).events.head? =
      some (CreateEvent.createRecord "T1") ∧
    (createTaskPost "queue" (some "body") "e" "T1" []).store.lookup "T1" =
      some TaskStatus.PENDING ∧
    ("queue" = "queue" →
      (createTaskPost "queue" (some "body") "e" "T1" []).events =
        [CreateEvent.createRecord "T1", CreateEvent.publish "T1"]) ∧
    ("queue" = "process" →
      (createTaskPost "queue" (some "body") "e" "T1" []).events =
        [CreateEvent.createRecord "T1", CreateEvent.syncRun "T1"]) ∧
    get_results (createTaskPost "queue" (some "body") "e" "T1" []).store "T1" =
      Except.ok TaskStatus.PENDING :=
  create_record_before_dispatch "queue" "body" "e" "T1" [] (Or.inl rfl)

/-- Claim C7: the queue-draining PeriodicCallback is constructed with
callback_time 1.000, which Tornado interprets in milliseconds, so the
actual fixed interval is one millisecond — not on the order of one
second as the spec intends. -/
theorem polling_interval_one_millisecond :
    pollingIntervalSeconds = 1 / 1000 ∧
    ¬ onTheOrderOfOneSecond pollingIntervalSeconds := by
  constructor
  · rfl
  · intro hcontra
    rcases hcontra with ⟨hlo, _⟩
    norm_num [pollingIntervalSeconds, pollingCallbackTime] at hlo

/-- Claim C8: a creation request whose body is not valid JSON fails with
the 500 error envelope and leaves the system untouched: no record
created, no publish, no synchronous run, because the body is decoded
before the record is created. -/
theorem create_invalid_body_no_effects (t decodeErr newId : String)
    (store0 : List (String × TaskStatus)) :
    createTaskPost t none decodeErr newId store0 =
      ⟨errorResponse ("Unexpected error at task creating: " ++ decodeErr),
        [], store0⟩ ∧
    (createTaskPost t none decodeErr newId store0).response.statusCode = 500 ∧
    (createTaskPost t none decodeErr newId store0).events = [] ∧
    (createTaskPost t none decodeErr newId store0).store = store0 :=
  ⟨rfl, rfl, rfl, rfl⟩

/-- Claim C9: a cached value that is falsy (the empty string) is treated
exactly like a cache miss — the store-backed path runs, with the same
response, the single store read, the same raised error and the same
cache-write attempts as a run whose cache has no entry at all for that
identifier — even though a cache entry exists. -/
theorem results_falsy_cached_value_is_miss (f : Bool) (st : ResolverState)
    (id : String) (h : st.cache.lookup id = some "") :
    resultsGet f st id = resultsMiss f st id ∧
    (eraseKey st.cache id).lookup id = none ∧
    (resultsGet f st id).response =
      (resultsGet f ⟨eraseKey st.cache id, st.store⟩ id).response ∧
    (resultsGet f st id).storeReads = 1 ∧
    (resultsGet f ⟨eraseKey st.cache id, st.store⟩ id).storeReads = 1 ∧
    (resultsGet f st id).raised =
      (resultsGet f ⟨eraseKey st.cache id, st.store⟩ id).raised ∧
    (resultsGet f st id).cacheSetAttempts =
      (resultsGet f ⟨eraseKey st.cache id, st.store⟩ id).cacheSetAttempts := by
  have hf : truthyOpt (st.cache.lookup id) = false := by rw [h]; rfl
  have herase : (eraseKey st.cache id).lookup id = none :=
    eraseKey_lookup_self st.cache id
  have hf2 : truthyOpt ((⟨eraseKey st.cache id, st.store⟩ :
      ResolverState).cache.lookup id) = false := by
    show truthyOpt ((eraseKey st.cache id).lookup id) = false
    rw [herase]
    rfl
  have e1 : resultsGet f st id = resultsMiss f st id :=
    resultsGet_eq_miss f st id hf
  have e2 : resultsGet f ⟨eraseKey st.cache id, st.store⟩ id =
      resultsMiss f ⟨eraseKey st.cache id, st.store⟩ id :=
    resultsGet_eq_miss f ⟨eraseKey st.cache id, st.store⟩ id hf2
  have hind := resultsMiss_cache_independent f st.cache (eraseKey st.cache id)
    st.store id
  refine ⟨e1, herase, ?_, ?_, ?_, ?_, ?_⟩
  · rw [e1, e2]
    exact hind.1
  · rw [e1]
    exact resultsMiss_storeReads f st id
  · rw [e2]
    exact resultsMiss_storeReads f ⟨eraseKey st.cache id, st.store⟩ id
  · rw [e1, e2]
    exact hind.2.2.2.1
  · rw [e1, e2]
    exact hind.2.2.1

/-- Witness for claim C9 at a concrete falsy cache entry over a pending
record. -/
theorem results_falsy_cached_value_is_miss_witness :
    resultsGet false ⟨[("t", "")], [("t", TaskStatus.PENDING)]⟩ "t" =
      resultsMiss false ⟨[("t", "")], [("t", TaskStatus.PENDING)]⟩ "t" ∧
    (eraseKey [("t", "")] "t").lookup "t" = none ∧
    (resultsGet false ⟨[("t", "")], [("t", TaskStatus.PENDING)]⟩ "t").response =
      (resultsGet false ⟨eraseKey [("t", "")] "t", [("t", TaskStatus.PENDING)]⟩
        "t").response ∧
    (resultsGet false ⟨[("t", "")], [("t", TaskStatus.PENDING)]⟩ "t").storeReads = 1 ∧
    (resultsGet false ⟨eraseKey [("t", "")] "t", [("t", TaskStatus.PENDING)]⟩
      "t").storeReads = 1 ∧
    (resultsGet false ⟨[("t", "")], [("t", TaskStatus.PENDING)]⟩ "t").raised =
      (resultsGet false ⟨eraseKey [("t", "")] "t", [("t", TaskStatus.PENDING)]⟩
        "t").raised ∧
    (resultsGet false ⟨[("t", "")], [("t", TaskStatus.PENDING)]⟩ "t").cacheSetAttempts =
      (resultsGet false ⟨eraseKey [("t", "")] "t", [("t", TaskStatus.PENDING)]⟩
        "t").cacheSetAttempts :=
  results_falsy_cached_value_is_miss false
    ⟨[("t", "")], [("t", TaskStatus.PENDING)]⟩ "t" (by decide)

/-- Claim C10 counterexample: an empty limit string is supplied and is
not parseable as an integer, yet with no task identifier the handler
returns the unbounded listing with a 200 status instead of an error
envelope; and when the (empty) task identifier is supplied together with
an unparseable limit, the limit is not ignored — it produces the 500
error envelope. -/
theorem list_limit_counterexample :
    pyIntParse "" = none ∧
    (listTasksGet none (some "")).response.statusCode = 200 ∧
    (listTasksGet none (some "")).crudCall = some (CrudCall.getTasks none) ∧
    pyIntParse "0x" = none ∧
    (listTasksGet (some "") (some "0x")).response.statusCode = 500 ∧
    (listTasksGet (some "") (some "0x")).crudCall = none := by
  decide

/-- Claim C10 (amended): a listing request with no truthy task
identifier and a non-empty limit value not parseable as an integer
returns the 500 error envelope and issues no TaskCrud call; and when a
non-empty (truthy) task identifier is supplied the limit value is
ignored entirely — the outcome is the same for every limit argument. -/
theorem list_unparseable_limit_errors (tid lim : Option String) (s : String) :
    (truthyOpt tid = false → lim = some s → s ≠ "" → pyIntParse s = none →
      listTasksGet tid lim =
        ⟨errorResponse ("Unexpected error at tasks listing: " ++
            intParseErrorMsg s), none⟩) ∧
    (truthyOpt tid = true → ∀ lim2, listTasksGet tid lim = listTasksGet tid lim2) := by
  constructor
  · intro hf hl hs hp
    subst hl
    have ht : truthyOpt (some s) = true := by
      simp [truthyOpt, hs]
    unfold listTasksGet
    rw [hf, ht]
    simp [hp]
  · intro ht lim2
    unfold listTasksGet
    rw [ht]
    simp

/-- Witness for amended claim C10: the concrete unparseable limit 12x
with no identifier errors, and with identifier t the limit zzz is
ignored. -/
theorem list_unparseable_limit_errors_witness :
    listTasksGet none (some "12x") =
      ⟨errorResponse ("Unexpected error at tasks listing: " ++
          intParseErrorMsg "12x"), none⟩ ∧
    listTasksGet (some "t") (some "zzz") = listTasksGet (some "t") none :=
  ⟨(list_unparseable_limit_errors none (some "12x") "12x").1 (by decide) rfl
      (by decide) (by decide),
    (list_unparseable_limit_errors (some "t") (some "zzz") "x").2 (by decide) none⟩

end OsintServer
